import Mathlib

/-!
# Verification of the poratiner-ce-mcp-server repository

Shallow embedding of the repository's two components:

* the Upstream Client (`src/api/portainer.ts`, plus the default-environment
  revision of the same module), modelled as pure request builders
  (`HttpRequest` values) together with the `handleRequest` outcome
  classifier, and
* the Tool Dispatcher (`src/main.ts`), which contains several concatenated
  revisions of the MCP server.  The first revision (try/catch + text
  formatting, paired with the default-environment client) is embedded as
  `dispatchRev1`; the second revision (envId-required schemas, **no**
  try/catch, raw results) is embedded as `dispatchRev2`.

JavaScript dynamic values are modelled by `JsValue`; an argument bag is a
total function `String → JsValue` returning `.undefined` for absent keys,
exactly like property access on a JS object.  The single upstream HTTP call
a handler performs is factored into (a) the `HttpRequest` the client builds
(recorded in a trace) and (b) its outcome, supplied by an `UpstreamR1` /
`UpstreamR2` record of per-endpoint outcomes.
-/

/-- A JavaScript runtime value, as far as the dispatcher manipulates them:
`undefined`, `null`, booleans, (integral) numbers, strings and plain objects
(association lists of properties). -/
inductive JsValue : Type where
  | undefined : JsValue
  | null : JsValue
  | bool : Bool → JsValue
  | num : Int → JsValue
  | str : String → JsValue
  | obj : List (String × JsValue) → JsValue

/-- JS string coercion as performed by a template literal placeholder. -/
def jsTemplate : JsValue → String
  | .undefined => "undefined"
  | .null => "null"
  | .bool true => "true"
  | .bool false => "false"
  | .num n => toString n
  | .str s => s
  | .obj _ => "[object Object]"

/-- JS falsiness (`undefined`, `null`, `false`, `0`, `""` are falsy). -/
def JsValue.isFalsy : JsValue → Bool
  | .undefined => true
  | .null => true
  | .bool b => !b
  | .num n => n == 0
  | .str s => s == ""
  | .obj _ => false

/-- The JS `a || b` operator. -/
def jsOr (a b : JsValue) : JsValue := if a.isFalsy then b else a

/-- A TypeScript default parameter: the default value replaces the argument
exactly when the argument is `undefined`. -/
def JsValue.orDefault : JsValue → JsValue → JsValue
  | .undefined, d => d
  | v, _ => v

/-- JS property read `v.k`.  Objects look the key up (absent keys give
`undefined`); primitive values such as strings expose no `message` property,
so reads of the properties this code accesses yield `undefined`.  (Property
access on `null`/`undefined` would throw in JS, but no handler in this code
reaches that case.) -/
def JsValue.getProp : JsValue → String → JsValue
  | .obj fields, k => ((fields.find? (fun p => p.1 == k)).map Prod.snd).getD .undefined
  | _, _ => .undefined

/-- JS `a || b` on strings (used for `x || "default"` patterns where `x` is
a string or `undefined`; both `undefined` and `""` are falsy and the model
collapses them to `""`). -/
def jsOrStr (a b : String) : String := if a = "" then b else a

/-- Hexadecimal digit, for JSON string escapes of control characters. -/
def hexDigit (n : Nat) : Char :=
  if n < 10 then Char.ofNat (48 + n) else Char.ofNat (87 + n)

/-- JSON escaping of a single character, as `JSON.stringify` performs it. -/
def jsonEscapeChar (c : Char) : String :=
  if c = '"' then "\\\""
  else if c = '\\' then "\\\\"
  else if c = '\n' then "\\n"
  else if c = '\r' then "\\r"
  else if c = '\t' then "\\t"
  else if c.toNat < 32 then "\\u00" ++ String.mk [hexDigit (c.toNat / 16), hexDigit (c.toNat % 16)]
  else String.mk [c]

/-- JSON escaping of a string body. -/
def jsonEscape (s : String) : String := String.join (s.data.map jsonEscapeChar)

mutual

/-- `JSON.stringify`, rendered as interpolated into a template literal
(in particular `undefined` renders as `"undefined"`). -/
def jsonStringify : JsValue → String
  | .undefined => "undefined"
  | .null => "null"
  | .bool true => "true"
  | .bool false => "false"
  | .num n => toString n
  | .str s => "\"" ++ jsonEscape s ++ "\""
  | .obj fields => "\x7b" ++ jsonStringifyFields fields ++ "\x7d"

/-- Comma-separated `"key":value` renderings of an object's properties. -/
def jsonStringifyFields : List (String × JsValue) → String
  | [] => ""
  | [(k, v)] => "\"" ++ jsonEscape k ++ "\":" ++ jsonStringify v
  | (k, v) :: rest =>
      "\"" ++ jsonEscape k ++ "\":" ++ jsonStringify v ++ "," ++ jsonStringifyFields rest

end

/-- A raised JS error as observed by the dispatcher's catch clause:
`responseDataMessage` is the value of `error.response?.data?.message`
(`.undefined` when the error carries no response, e.g. errors produced by
`new Error(...)`), and `message` is `error.message`. -/
structure JsError where
  responseDataMessage : JsValue
  message : String

/-- The catch clause's best-effort message:
`error.response?.data?.message || error.message || "Cannot process the request"`,
coerced to text by the `Failed: ${...}` template. -/
def bestMessage (e : JsError) : String :=
  jsTemplate (jsOr e.responseDataMessage (jsOr (.str e.message) (.str "Cannot process the request")))

/-- HTTP method of an upstream call. -/
inductive HttpMethod : Type where
  | get : HttpMethod
  | post : HttpMethod
  | delete : HttpMethod

/-- The upstream HTTP request an Upstream Client function builds: method,
interpolated path, axios `params` (query parameters) and JSON body fields. -/
structure HttpRequest where
  method : HttpMethod
  path : String
  params : List (String × JsValue)
  body : List (String × JsValue)

/-- Outcome of one awaited axios request, as seen by `handleRequest`: the
axios promise either resolves with the response data, or rejects with an
`AxiosError` that carries a response (non-2xx status and body), or was sent
but received no response, or failed before the request could be sent.  (The
promise passed to `handleRequest` always comes from the axios client, whose
rejections are `AxiosError` values, so these four cases are exhaustive.) -/
inductive AxiosOutcome (T : Type) : Type where
  | success : T → AxiosOutcome T
  | errorResponse : Nat → JsValue → String → AxiosOutcome T
  | noResponse : String → AxiosOutcome T
  | setupError : String → AxiosOutcome T

/-- `handleRequest` of `src/api/portainer.ts`: unwraps the response data on
success and otherwise classifies the failure into exactly one of three
raised errors. -/
def handleRequest {T : Type} : AxiosOutcome T → Except JsError T
  | .success d => .ok d
  | .errorResponse status data _ =>
      .error ⟨.undefined, "Portainer API error: " ++ toString status ++ " - " ++ jsonStringify data⟩
  | .noResponse m => .error ⟨.undefined, "No response from Portainer API: " ++ m⟩
  | .setupError m => .error ⟨.undefined, "Error setting up request to Portainer API: " ++ m⟩

namespace Portainer

/-! Request builders of `src/api/portainer.ts` (the revision that takes the
environment identifier per call).  Identifiers are interpolated into the
path template exactly as the source's template literals do. -/

/-- `fetchDockerContainers`. -/
def fetchDockerContainers (envId : JsValue) : HttpRequest :=
  ⟨.get, "/api/endpoints/" ++ jsTemplate envId ++ "/docker/containers/json",
    [("all", .bool true)], []⟩

/-- `createDockerContainer`. -/
def createDockerContainer (envId containerName image exposedPorts hostConfig : JsValue) :
    HttpRequest :=
  ⟨.post, "/api/endpoints/" ++ jsTemplate envId ++ "/docker/containers/create", [],
    [("name", containerName), ("Image", image), ("ExposedPorts", exposedPorts),
     ("HostConfig", hostConfig)]⟩

/-- `startDockerContainer`. -/
def startDockerContainer (envId containerId : JsValue) : HttpRequest :=
  ⟨.post, "/api/endpoints/" ++ jsTemplate envId ++ "/docker/containers/" ++
    jsTemplate containerId ++ "/start", [], []⟩

/-- `deleteDockerContainer` (`force: boolean = false` is a TS default
parameter, so it applies exactly when the argument is `undefined`). -/
def deleteDockerContainer (envId containerId force : JsValue) : HttpRequest :=
  ⟨.delete, "/api/endpoints/" ++ jsTemplate envId ++ "/docker/containers/" ++
    jsTemplate containerId,
    [("force", force.orDefault (.bool false))], []⟩

/-- `fetchContainerLogs` with its five defaulted log filters. -/
def fetchContainerLogs (envId containerId stdout stderr follow timestamps tail : JsValue) :
    HttpRequest :=
  ⟨.get, "/api/endpoints/" ++ jsTemplate envId ++ "/docker/containers/" ++
    jsTemplate containerId ++ "/logs",
    [("stdout", stdout.orDefault (.bool true)), ("stderr", stderr.orDefault (.bool true)),
     ("follow", follow.orDefault (.bool false)),
     ("timestamps", timestamps.orDefault (.bool false)),
     ("tail", tail.orDefault (.num 10))], []⟩

/-- `updateContainerResourceLimits`. -/
def updateContainerResourceLimits (envId containerId memory memorySwap restartPolicy : JsValue) :
    HttpRequest :=
  ⟨.post, "/api/endpoints/" ++ jsTemplate envId ++ "/docker/containers/" ++
    jsTemplate containerId ++ "/update", [],
    [("Memory", memory), ("MemorySwap", memorySwap), ("RestartPolicy", restartPolicy)]⟩

/-- `deleteStoppedContainers`. -/
def deleteStoppedContainers (envId : JsValue) : HttpRequest :=
  ⟨.delete, "/api/endpoints/" ++ jsTemplate envId ++ "/docker/containers/prune",
    [("all", .bool true)], []⟩

/-- `fetchImages`. -/
def fetchImages (envId : JsValue) : HttpRequest :=
  ⟨.get, "/api/endpoints/" ++ jsTemplate envId ++ "/docker/images/json", [], []⟩

/-- `deleteImageBuildCache`. -/
def deleteImageBuildCache (envId : JsValue) : HttpRequest :=
  ⟨.delete, "/api/endpoints/" ++ jsTemplate envId ++ "/docker/images/prune", [], []⟩

/-- `deleteUnusedImages`. -/
def deleteUnusedImages (envId : JsValue) : HttpRequest :=
  ⟨.delete, "/api/endpoints/" ++ jsTemplate envId ++ "/docker/images/prune", [], []⟩

/-- `fetchNetworks`. -/
def fetchNetworks (envId : JsValue) : HttpRequest :=
  ⟨.get, "/api/endpoints/" ++ jsTemplate envId ++ "/docker/networks", [], []⟩

/-- `inspectNetwork`. -/
def inspectNetwork (envId networkId : JsValue) : HttpRequest :=
  ⟨.get, "/api/endpoints/" ++ jsTemplate envId ++ "/docker/networks/" ++
    jsTemplate networkId, [], []⟩

/-- `fetchServices`. -/
def fetchServices (envId : JsValue) : HttpRequest :=
  ⟨.get, "/api/endpoints/" ++ jsTemplate envId ++ "/docker/services", [], []⟩

/-- `fetchServiceLog` with its five defaulted log filters. -/
def fetchServiceLog (envId serviceId stdout stderr follow timestamps tail : JsValue) :
    HttpRequest :=
  ⟨.get, "/api/endpoints/" ++ jsTemplate envId ++ "/docker/services/" ++
    jsTemplate serviceId ++ "/logs",
    [("stdout", stdout.orDefault (.bool true)), ("stderr", stderr.orDefault (.bool true)),
     ("follow", follow.orDefault (.bool false)),
     ("timestamps", timestamps.orDefault (.bool false)),
     ("tail", tail.orDefault (.num 10))], []⟩

end Portainer

namespace PortainerEnvDefault

/-! Request builders of the default-environment revision of the Upstream
Client (`src/unnamed/part_000`): every path interpolates the startup-time
`PORTAINER_ENV_ID`, passed here as the `cfg` argument. -/

/-- `fetchDockerContainers` (no per-call environment argument). -/
def fetchDockerContainers (cfg : String) : HttpRequest :=
  ⟨.get, "/api/endpoints/" ++ cfg ++ "/docker/containers/json", [("all", .bool true)], []⟩

/-- `createDockerContainer`. -/
def createDockerContainer (cfg : String) (containerName image exposedPorts hostConfig : JsValue) :
    HttpRequest :=
  ⟨.post, "/api/endpoints/" ++ cfg ++ "/docker/containers/create", [],
    [("name", containerName), ("Image", image), ("ExposedPorts", exposedPorts),
     ("HostConfig", hostConfig)]⟩

/-- `startDockerContainer`. -/
def startDockerContainer (cfg : String) (containerId : JsValue) : HttpRequest :=
  ⟨.post, "/api/endpoints/" ++ cfg ++ "/docker/containers/" ++ jsTemplate containerId ++
    "/start", [], []⟩

/-- `deleteDockerContainer` with TS default `force = false`. -/
def deleteDockerContainer (cfg : String) (containerId force : JsValue) : HttpRequest :=
  ⟨.delete, "/api/endpoints/" ++ cfg ++ "/docker/containers/" ++ jsTemplate containerId,
    [("force", force.orDefault (.bool false))], []⟩

/-- `fetchContainerLogs` with the same defaulted log filters. -/
def fetchContainerLogs (cfg : String) (containerId stdout stderr follow timestamps tail : JsValue) :
    HttpRequest :=
  ⟨.get, "/api/endpoints/" ++ cfg ++ "/docker/containers/" ++ jsTemplate containerId ++ "/logs",
    [("stdout", stdout.orDefault (.bool true)), ("stderr", stderr.orDefault (.bool true)),
     ("follow", follow.orDefault (.bool false)),
     ("timestamps", timestamps.orDefault (.bool false)),
     ("tail", tail.orDefault (.num 10))], []⟩

/-- `updateContainerResourceLimits`. -/
def updateContainerResourceLimits (cfg : String)
    (containerId memory memorySwap restartPolicy : JsValue) : HttpRequest :=
  ⟨.post, "/api/endpoints/" ++ cfg ++ "/docker/containers/" ++ jsTemplate containerId ++
    "/update", [],
    [("Memory", memory), ("MemorySwap", memorySwap), ("RestartPolicy", restartPolicy)]⟩

/-- `pruneContainer`. -/
def pruneContainer (cfg : String) : HttpRequest :=
  ⟨.delete, "/api/endpoints/" ++ cfg ++ "/docker/containers/prune", [("all", .bool true)], []⟩

/-- `fetchImages`. -/
def fetchImages (cfg : String) : HttpRequest :=
  ⟨.get, "/api/endpoints/" ++ cfg ++ "/docker/images/json", [], []⟩

/-- `deleteImageBuildCache`. -/
def deleteImageBuildCache (cfg : String) : HttpRequest :=
  ⟨.delete, "/api/endpoints/" ++ cfg ++ "/docker/images/prune", [], []⟩

/-- `deleteUnusedImages`. -/
def deleteUnusedImages (cfg : String) : HttpRequest :=
  ⟨.delete, "/api/endpoints/" ++ cfg ++ "/docker/images/prune", [], []⟩

/-- `fetchNetworks`. -/
def fetchNetworks (cfg : String) : HttpRequest :=
  ⟨.get, "/api/endpoints/" ++ cfg ++ "/docker/networks", [], []⟩

/-- `fetchServices`. -/
def fetchServices (cfg : String) : HttpRequest :=
  ⟨.get, "/api/endpoints/" ++ cfg ++ "/docker/services", [], []⟩

/-- `fetchServiceLog`. -/
def fetchServiceLog (cfg : String) (serviceId stdout stderr follow timestamps tail : JsValue) :
    HttpRequest :=
  ⟨.get, "/api/endpoints/" ++ cfg ++ "/docker/services/" ++ jsTemplate serviceId ++ "/logs",
    [("stdout", stdout.orDefault (.bool true)), ("stderr", stderr.orDefault (.bool true)),
     ("follow", follow.orDefault (.bool false)),
     ("timestamps", timestamps.orDefault (.bool false)),
     ("tail", tail.orDefault (.num 10))], []⟩

end PortainerEnvDefault

/-! ## Data model (`src/types/index.ts`) -/

/-- An entry of a container's `Ports` array. -/
structure ContainerPort where
  IP : Option String
  PrivatePort : Int
  PublicPort : Option Int
  «Type» : String

/-- An entry of a container's `Mounts` array. -/
structure ContainerMount where
  «Type» : String
  Name : Option String
  Source : String
  Destination : String
  Driver : Option String
  Mode : String
  RW : Bool
  Propagation : String

/-- A container's `NetworkSettings` object. -/
structure NetworkSettingsT where
  Networks : List (String × JsValue)

/-- `DockerContainer`. -/
structure DockerContainer where
  Id : String
  Names : List String
  Image : String
  ImageID : String
  Command : String
  Created : Int
  State : String
  Status : String
  Ports : List ContainerPort
  Labels : List (String × String)
  NetworkSettings : NetworkSettingsT
  Mounts : List ContainerMount

/-- `DockerImage`. -/
structure DockerImage where
  Id : String
  ParentId : String
  RepoTags : List String
  RepoDigests : List String
  Created : Int
  Size : Int
  VirtualSize : Int
  Labels : List (String × String)

/-- An entry of a network's `IPAM.Config` array. -/
structure IPAMConfigT where
  Subnet : String
  Gateway : String

/-- A network's `IPAM` object. -/
structure IPAMT where
  Driver : String
  Options : List (String × String)
  Config : List IPAMConfigT

/-- A network's `ConfigFrom` object. -/
structure ConfigFromT where
  Network : String

/-- `DockerNetwork`. -/
structure DockerNetwork where
  Id : String
  Name : String
  Scope : String
  Driver : String
  EnableIPv6 : Bool
  IPAM : IPAMT
  Internal : Bool
  Attachable : Bool
  Ingress : Bool
  ConfigFrom : ConfigFromT
  ConfigOnly : Bool
  Containers : List (String × JsValue)
  Options : List (String × String)

/-- A service's `Spec.TaskTemplate.ContainerSpec` object. -/
structure ContainerSpecT where
  Image : String

/-- A service's `Spec.TaskTemplate` object. -/
structure TaskTemplateT where
  ContainerSpec : ContainerSpecT

/-- A service's `Spec.Mode.Replicated` object. -/
structure ReplicatedT where
  Replicas : Int

/-- A service's `Spec.Mode` object. -/
structure ServiceModeT where
  Replicated : ReplicatedT

/-- A service's `Spec` object. -/
structure ServiceSpecT where
  Name : String
  Labels : List (String × String)
  TaskTemplate : TaskTemplateT
  Mode : ServiceModeT

/-- An entry of a service's `Endpoint.Spec.Ports` array. -/
structure ServicePortT where
  Protocol : String
  TargetPort : Int
  PublishedPort : Int
  PublishMode : String

/-- A service's `Endpoint.Spec` object. -/
structure EndpointSpecT where
  Mode : String
  Ports : List ServicePortT

/-- A service's `Endpoint` object. -/
structure ServiceEndpointT where
  Spec : EndpointSpecT

/-- A service's `UpdateStatus` object. -/
structure UpdateStatusT where
  State : String
  StartedAt : String
  CompletedAt : String
  Message : String

/-- A service's `Version` object. -/
structure VersionT where
  Index : Int

/-- `DockerService`. -/
structure DockerService where
  ID : String
  Version : VersionT
  CreatedAt : String
  UpdatedAt : String
  Spec : ServiceSpecT
  Endpoint : ServiceEndpointT
  UpdateStatus : UpdateStatusT

/-- The container-creation acknowledgment body
(`{ Id: string; Warnings: string[] }`). -/
structure CreateResponse where
  Id : String
  Warnings : List String

/-- The container-prune summary body
(`{ ContainersDeleted: string[]; SpaceReclaimed: number }`). -/
structure PruneResponse where
  ContainersDeleted : List String
  SpaceReclaimed : Int

/-- The image-prune summary body
(`{ ImagesDeleted: string[]; SpaceReclaimed: number }`). -/
structure ImagePruneResponse where
  ImagesDeleted : List String
  SpaceReclaimed : Int

/-! ### Loosely-typed shapes read by the first-revision handlers, which
access upstream data through untyped (`any`) values. -/

/-- The `name`/`description` records the first revision's
`DeleteUnusedImages` case assumes the prune result to be an array of. -/
structure R1NameDesc where
  name : String
  description : String

/-- The network fields the first revision's `GetNetworks` case reads
(its inline type; note it reads a `Created` field). -/
structure R1Network where
  Name : String
  Id : String
  Created : String
  Scope : String
  Driver : String

/-- The port fields the first revision's `GetServices` case reads. -/
structure R1ServicePort where
  PublishedPort : Int
  TargetPort : Int
  Protocol : String

/-- The optional-chained service fields the first revision's `GetServices`
case reads (`service?.Spec?.Name`, `service?.Spec?.TaskTemplate?.ContainerSpec?.Image`,
`service?.Endpoint?.Ports`); `none` models an absent level of the chain. -/
structure R1Service where
  SpecName : Option String
  SpecImage : Option String
  EndpointPorts : Option (List R1ServicePort)

/-! ## Reply formatters of the first-revision tool-call handler -/

/-- One `Ports` entry rendered as `${p.PublicPort}:${p.PrivatePort}/${p.Type}`
(an absent `PublicPort` interpolates as `undefined`). -/
def portEntry (p : ContainerPort) : String :=
  (match p.PublicPort with
    | none => "undefined"
    | some n => toString n) ++ ":" ++ toString p.PrivatePort ++ "/" ++ p.«Type»

/-- `container.Names?.[0] || "unknown"` (an absent head and an empty string
are both falsy). -/
def containerDisplayName (c : DockerContainer) : String :=
  jsOrStr (c.Names.headD "") "unknown"

/-- `container.Ports?.map(...).join(", ") || "none"`. -/
def containerPortsDisplay (c : DockerContainer) : String :=
  jsOrStr (String.intercalate ", " (c.Ports.map portEntry)) "none"

/-- One line of the `GetDockerContainers` reply. -/
def containerLine (c : DockerContainer) : String :=
  "ContainerId: " ++ c.Id ++ ", Name: " ++ containerDisplayName c ++
    ", Ports: " ++ containerPortsDisplay c ++ ", State: " ++ c.State ++
    ", Status: " ++ c.Status

/-- The `GetDockerContainers` reply text: one line per container, joined
with newlines. -/
def formatContainersReply (l : List DockerContainer) : String :=
  String.intercalate "\n" (l.map containerLine)

/-- `image.RepoTags?.[0] || "untagged"`. -/
def imageDisplayName (img : DockerImage) : String :=
  jsOrStr (img.RepoTags.headD "") "untagged"

/-- `name.includes("/") ? name.split("/")[0] : "docker.io"`. -/
def imageRegistry (name : String) : String :=
  if name.contains '/' then (name.splitOn "/").headD "" else "docker.io"

/-- One line of the `GetImages` reply. -/
def imageLine (img : DockerImage) : String :=
  "Name: " ++ imageDisplayName img ++ ", Registry: " ++ imageRegistry (imageDisplayName img) ++
    ", Id: " ++ img.Id

/-- One line of the `DeleteUnusedImages` reply. -/
def nameDescLine (d : R1NameDesc) : String :=
  "Name: " ++ d.name ++ ", Description: " ++ d.description

/-- One line of the `GetNetworks` reply. -/
def networkLine (n : R1Network) : String :=
  "Name: " ++ n.Name ++ ", Id: " ++ n.Id ++ ", Created: " ++ n.Created ++
    ", Scope: " ++ n.Scope ++ ", Driver: " ++ n.Driver

/-- One `Endpoint.Ports` entry rendered as
`${port.PublishedPort}->${port.TargetPort}/${port.Protocol}`. -/
def r1ServicePortEntry (p : R1ServicePort) : String :=
  toString p.PublishedPort ++ "->" ++ toString p.TargetPort ++ "/" ++ p.Protocol

/-- `v || d` where `v` came from an optional chain producing a string. -/
def jsOrOpt (v : Option String) (d : String) : String := jsOrStr (v.getD "") d

/-- One line of the `GetServices` reply. -/
def serviceLine (s : R1Service) : String :=
  "Name: " ++ jsOrOpt s.SpecName "N/A" ++ ", Image: " ++ jsOrOpt s.SpecImage "N/A" ++
    ", Ports: " ++
    jsOrOpt (s.EndpointPorts.map (fun ps => String.intercalate ", " (ps.map r1ServicePortEntry)))
      "None"

/-- The `CreateDockerContainer` success text (warnings appended only when
present). -/
def createReplyText (r : CreateResponse) : String :=
  "Container created successfully with Id: " ++ r.Id ++
    (if r.Warnings.length > 0 then "\nWarnings: " ++ String.intercalate ", " r.Warnings else "")

/-! ## Tool name constants

The repository's `src/constants/index.ts` is imported by every `main.ts`
revision but is absent from the sources; only its member names are visible
at the import sites and in the README's tool list. -/

namespace Tools

/-- Modelled from the spec: `constants/index.ts` is missing from the
sources; the first revision's `Tools` members are given their member names
as string values (the claims depend only on these names being distinct). -/
def GetDockerContainers : String := "GetDockerContainers"

/-- Modelled from the spec: see `Tools.GetDockerContainers`. -/
def CreateDockerContainer : String := "CreateDockerContainer"

/-- Modelled from the spec: see `Tools.GetDockerContainers`. -/
def StartDockerContainer : String := "StartDockerContainer"

/-- Modelled from the spec: see `Tools.GetDockerContainers`. -/
def DeleteDockerContainer : String := "DeleteDockerContainer"

/-- Modelled from the spec: see `Tools.GetDockerContainers`. -/
def GetContainerLogs : String := "GetContainerLogs"

/-- Modelled from the spec: see `Tools.GetDockerContainers`. -/
def UpdateContainer : String := "UpdateContainer"

/-- Modelled from the spec: see `Tools.GetDockerContainers`. -/
def DeleteUnwantedContainers : String := "DeleteUnwantedContainers"

/-- Modelled from the spec: see `Tools.GetDockerContainers`. -/
def GetImages : String := "GetImages"

/-- Modelled from the spec: see `Tools.GetDockerContainers`. -/
def DeleteImageBuilderCache : String := "DeleteImageBuilderCache"

/-- Modelled from the spec: see `Tools.GetDockerContainers`. -/
def DeleteUnusedImages : String := "DeleteUnusedImages"

/-- Modelled from the spec: see `Tools.GetDockerContainers`. -/
def GetNetworks : String := "GetNetworks"

/-- Modelled from the spec: see `Tools.GetDockerContainers`. -/
def GetServices : String := "GetServices"

/-- Modelled from the spec: see `Tools.GetDockerContainers`. -/
def GetServiceLogs : String := "GetServiceLogs"

end Tools

namespace TOOL

/-- Modelled from the spec: `constants/index.ts` is missing from the
sources; the second revision's `TOOL` members take the values listed in the
README's "API Tools" section (`FETCH_DOCKER_CONTAINERS`, ...). -/
def FETCH_DOCKER_CONTAINERS : String := "FETCH_DOCKER_CONTAINERS"

/-- Modelled from the spec: see `TOOL.FETCH_DOCKER_CONTAINERS`. -/
def CREATE_DOCKER_CONTAINER : String := "CREATE_DOCKER_CONTAINER"

/-- Modelled from the spec: see `TOOL.FETCH_DOCKER_CONTAINERS`. -/
def START_DOCKER_CONTAINER : String := "START_DOCKER_CONTAINER"

/-- Modelled from the spec: see `TOOL.FETCH_DOCKER_CONTAINERS`. -/
def DELETE_DOCKER_CONTAINER : String := "DELETE_DOCKER_CONTAINER"

/-- Modelled from the spec: see `TOOL.FETCH_DOCKER_CONTAINERS`. -/
def FETCH_CONTAINER_LOGS : String := "FETCH_CONTAINER_LOGS"

/-- Modelled from the spec: see `TOOL.FETCH_DOCKER_CONTAINERS`. -/
def UPDATE_CONTAINER_RESOURCE_LIMITS : String := "UPDATE_CONTAINER_RESOURCE_LIMITS"

/-- Modelled from the spec: see `TOOL.FETCH_DOCKER_CONTAINERS`. -/
def DELETE_STOPPED_CONTAINERS : String := "DELETE_STOPPED_CONTAINERS"

/-- Modelled from the spec: see `TOOL.FETCH_DOCKER_CONTAINERS`. -/
def FETCH_IMAGES : String := "FETCH_IMAGES"

/-- Modelled from the spec: see `TOOL.FETCH_DOCKER_CONTAINERS`. -/
def DELETE_IMAGE_BUILD_CACHE : String := "DELETE_IMAGE_BUILD_CACHE"

/-- Modelled from the spec: see `TOOL.FETCH_DOCKER_CONTAINERS`. -/
def DELETE_UNUSED_IMAGES : String := "DELETE_UNUSED_IMAGES"

/-- Modelled from the spec: see `TOOL.FETCH_DOCKER_CONTAINERS`. -/
def FETCH_NETWORKS : String := "FETCH_NETWORKS"

/-- Modelled from the spec: see `TOOL.FETCH_DOCKER_CONTAINERS`. -/
def INSPECT_NETWORK : String := "INSPECT_NETWORK"

/-- Modelled from the spec: see `TOOL.FETCH_DOCKER_CONTAINERS`. -/
def FETCH_SERVICES : String := "FETCH_SERVICES"

/-- Modelled from the spec: see `TOOL.FETCH_DOCKER_CONTAINERS`. -/
def FETCH_SERVICE_LOG : String := "FETCH_SERVICE_LOG"

end TOOL

/-! ## The tool-call dispatchers -/

/-- A JS argument bag: total map from property name to value, `undefined`
for absent keys (exactly JS object property access). -/
abbrev ArgBag : Type := String → JsValue

/-- Builds an `ArgBag` from an association list. -/
def bagOfPairs (l : List (String × JsValue)) : ArgBag :=
  fun k => ((l.find? (fun p => p.1 == k)).map Prod.snd).getD .undefined

/-- One tool-call request: a tool name and an optional argument bag
(`request.params.arguments` may be absent). -/
structure CallRequest where
  name : String
  args : Option ArgBag

/-- A first-revision reply payload: `content: [{ type: "text", text }]`
where `text` may be `undefined` (so its payload is a `JsValue`). -/
structure Reply where
  text : JsValue

/-- Outcomes of the single upstream call each first-revision handler case
awaits, typed the way the handler consumes the data.  A field models the
settled value of the corresponding Upstream Client function's promise. -/
structure UpstreamR1 where
  fetchDockerContainers : Except JsError (List DockerContainer)
  createDockerContainer : Except JsError CreateResponse
  startDockerContainer : Except JsError Unit
  deleteDockerContainer : Except JsError Unit
  fetchContainerLogs : Except JsError String
  updateContainerResourceLimits : Except JsError Unit
  pruneContainer : Except JsError JsValue
  fetchImages : Except JsError (List DockerImage)
  deleteImageBuildCache : Except JsError JsValue
  deleteUnusedImages : Except JsError (List R1NameDesc)
  fetchNetworks : Except JsError (List R1Network)
  fetchServices : Except JsError (List R1Service)
  fetchServiceLog : Except JsError String

/-- The try-block body of the first revision's `CallToolRequestSchema`
handler: missing arguments and unknown tool names raise, each tool case
builds one upstream request (recorded in the returned trace, via the
default-environment client with startup configuration `cfg`) and maps the
upstream outcome to a text reply. -/
def dispatchRev1Core (cfg : String) (u : UpstreamR1) (req : CallRequest) :
    Except JsError Reply × List HttpRequest :=
  match req.args with
  | none => (.error ⟨.undefined, "No arguments provided for tool: " ++ req.name⟩, [])
  | some args =>
    if req.name = Tools.GetDockerContainers then
      (u.fetchDockerContainers.map fun result => ⟨.str (formatContainersReply result)⟩,
       [PortainerEnvDefault.fetchDockerContainers cfg])
    else if req.name = Tools.CreateDockerContainer then
      (u.createDockerContainer.map fun result => ⟨.str (createReplyText result)⟩,
       [PortainerEnvDefault.createDockerContainer cfg (args "containerName") (args "image")
         (jsOr (args "exposedPorts") (.obj [])) (jsOr (args "hostConfig") (.obj []))])
    else if req.name = Tools.StartDockerContainer then
      (u.startDockerContainer.map fun _ =>
         ⟨.str ("Operation successful - Container Id: " ++ jsTemplate (args "containerId") ++
           ", Env Id: " ++ jsTemplate (args "envId"))⟩,
       [PortainerEnvDefault.startDockerContainer cfg (args "containerId")])
    else if req.name = Tools.DeleteDockerContainer then
      (u.deleteDockerContainer.map fun _ =>
         ⟨.str ("Operation successful - Container Id: " ++ jsTemplate (args "containerId") ++
           ", Env Id: " ++ jsTemplate (args "envId"))⟩,
       [PortainerEnvDefault.deleteDockerContainer cfg (args "containerId") (args "force")])
    else if req.name = Tools.GetContainerLogs then
      (u.fetchContainerLogs.map fun result => ⟨(JsValue.str result).getProp "message"⟩,
       [PortainerEnvDefault.fetchContainerLogs cfg (args "containerId") (args "stdout")
         (args "stderr") (args "follow") (args "timestamps") (args "tail")])
    else if req.name = Tools.UpdateContainer then
      (u.updateContainerResourceLimits.map fun _ =>
         ⟨.str ("Operation successful - Container Id: " ++ jsTemplate (args "containerId") ++
           ", Env Id: " ++ jsTemplate (args "envId"))⟩,
       [PortainerEnvDefault.updateContainerResourceLimits cfg (args "containerId")
         (args "memory") (args "memorySwap") (args "restartPolicy")])
    else if req.name = Tools.DeleteUnwantedContainers then
      (u.pruneContainer.map fun _ =>
         ⟨.str ("Operation successful - Env Id: " ++ jsTemplate (args "envId"))⟩,
       [PortainerEnvDefault.pruneContainer cfg])
    else if req.name = Tools.GetImages then
      (u.fetchImages.map fun images => ⟨.str (String.intercalate "\n" (images.map imageLine))⟩,
       [PortainerEnvDefault.fetchImages cfg])
    else if req.name = Tools.DeleteImageBuilderCache then
      (u.deleteImageBuildCache.map fun _ =>
         ⟨.str ("Operation successful - Env Id: " ++ jsTemplate (args "envId"))⟩,
       [PortainerEnvDefault.deleteImageBuildCache cfg])
    else if req.name = Tools.DeleteUnusedImages then
      (u.deleteUnusedImages.map fun result =>
         ⟨.str (String.intercalate "\n" (result.map nameDescLine))⟩,
       [PortainerEnvDefault.deleteUnusedImages cfg])
    else if req.name = Tools.GetNetworks then
      (u.fetchNetworks.map fun networks =>
         ⟨.str (String.intercalate "\n" (networks.map networkLine))⟩,
       [PortainerEnvDefault.fetchNetworks cfg])
    else if req.name = Tools.GetServices then
      (u.fetchServices.map fun services =>
         ⟨.str (String.intercalate "\n" (services.map serviceLine))⟩,
       [PortainerEnvDefault.fetchServices cfg])
    else if req.name = Tools.GetServiceLogs then
      (u.fetchServiceLog.map fun result => ⟨(JsValue.str result).getProp "message"⟩,
       [PortainerEnvDefault.fetchServiceLog cfg (args "serviceId") (args "stdout")
         (args "stderr") (args "follow") (args "timestamps") (args "tail")])
    else
      (.error ⟨.undefined, "Unknown tool: " ++ req.name⟩, [])

/-- The first revision's `CallToolRequestSchema` handler: the try-block
body wrapped in the catch clause that turns any raised error into a
`Failed: <best-effort message>` text reply.  It always returns a reply. -/
def dispatchRev1 (cfg : String) (u : UpstreamR1) (req : CallRequest) :
    Reply × List HttpRequest :=
  match dispatchRev1Core cfg u req with
  | (.ok r, tr) => (r, tr)
  | (.error e, tr) => (⟨.str ("Failed: " ++ bestMessage e)⟩, tr)

/-- A second-revision handler result: the raw `{ result: ... }` payload,
one constructor per tool result type (`empty` models the `undefined`
result of the void operations). -/
inductive Rev2Result : Type where
  | containers : List DockerContainer → Rev2Result
  | created : CreateResponse → Rev2Result
  | empty : Rev2Result
  | logs : String → Rev2Result
  | containerPrune : PruneResponse → Rev2Result
  | images : List DockerImage → Rev2Result
  | imagePrune : ImagePruneResponse → Rev2Result
  | networks : List DockerNetwork → Rev2Result
  | network : DockerNetwork → Rev2Result
  | services : List DockerService → Rev2Result

/-- Outcomes of the single upstream call each second-revision handler case
awaits, typed per `src/api/portainer.ts`. -/
structure UpstreamR2 where
  fetchDockerContainers : Except JsError (List DockerContainer)
  createDockerContainer : Except JsError CreateResponse
  startDockerContainer : Except JsError Unit
  deleteDockerContainer : Except JsError Unit
  fetchContainerLogs : Except JsError String
  updateContainerResourceLimits : Except JsError Unit
  deleteStoppedContainers : Except JsError PruneResponse
  fetchImages : Except JsError (List DockerImage)
  deleteImageBuildCache : Except JsError ImagePruneResponse
  deleteUnusedImages : Except JsError ImagePruneResponse
  fetchNetworks : Except JsError (List DockerNetwork)
  inspectNetwork : Except JsError DockerNetwork
  fetchServices : Except JsError (List DockerService)
  fetchServiceLog : Except JsError String

/-- The second revision's `CallToolRequestSchema` handler.  It has **no**
try/catch: a raised error (missing arguments, unknown tool, or an upstream
failure) escapes the handler, modelled as an `Except.error` overall
outcome rather than a reply. -/
def dispatchRev2 (u : UpstreamR2) (req : CallRequest) :
    Except JsError Rev2Result × List HttpRequest :=
  match req.args with
  | none => (.error ⟨.undefined, "No arguments provided for tool: " ++ req.name⟩, [])
  | some args =>
    if req.name = TOOL.FETCH_DOCKER_CONTAINERS then
      (u.fetchDockerContainers.map Rev2Result.containers,
       [Portainer.fetchDockerContainers (args "envId")])
    else if req.name = TOOL.CREATE_DOCKER_CONTAINER then
      (u.createDockerContainer.map Rev2Result.created,
       [Portainer.createDockerContainer (args "envId") (args "containerName") (args "image")
         (jsOr (args "exposedPorts") (.obj [])) (jsOr (args "hostConfig") (.obj []))])
    else if req.name = TOOL.START_DOCKER_CONTAINER then
      (u.startDockerContainer.map fun _ => Rev2Result.empty,
       [Portainer.startDockerContainer (args "envId") (args "containerId")])
    else if req.name = TOOL.DELETE_DOCKER_CONTAINER then
      (u.deleteDockerContainer.map fun _ => Rev2Result.empty,
       [Portainer.deleteDockerContainer (args "envId") (args "containerId") (args "force")])
    else if req.name = TOOL.FETCH_CONTAINER_LOGS then
      (u.fetchContainerLogs.map Rev2Result.logs,
       [Portainer.fetchContainerLogs (args "envId") (args "containerId") (args "stdout")
         (args "stderr") (args "follow") (args "timestamps") (args "tail")])
    else if req.name = TOOL.UPDATE_CONTAINER_RESOURCE_LIMITS then
      (u.updateContainerResourceLimits.map fun _ => Rev2Result.empty,
       [Portainer.updateContainerResourceLimits (args "envId") (args "containerId")
         (args "memory") (args "memorySwap") (args "restartPolicy")])
    else if req.name = TOOL.DELETE_STOPPED_CONTAINERS then
      (u.deleteStoppedContainers.map Rev2Result.containerPrune,
       [Portainer.deleteStoppedContainers (args "envId")])
    else if req.name = TOOL.FETCH_IMAGES then
      (u.fetchImages.map Rev2Result.images,
       [Portainer.fetchImages (args "envId")])
    else if req.name = TOOL.DELETE_IMAGE_BUILD_CACHE then
      (u.deleteImageBuildCache.map Rev2Result.imagePrune,
       [Portainer.deleteImageBuildCache (args "envId")])
    else if req.name = TOOL.DELETE_UNUSED_IMAGES then
      (u.deleteUnusedImages.map Rev2Result.imagePrune,
       [Portainer.deleteUnusedImages (args "envId")])
    else if req.name = TOOL.FETCH_NETWORKS then
      (u.fetchNetworks.map Rev2Result.networks,
       [Portainer.fetchNetworks (args "envId")])
    else if req.name = TOOL.INSPECT_NETWORK then
      (u.inspectNetwork.map Rev2Result.network,
       [Portainer.inspectNetwork (args "envId") (args "networkId")])
    else if req.name = TOOL.FETCH_SERVICES then
      (u.fetchServices.map Rev2Result.services,
       [Portainer.fetchServices (args "envId")])
    else if req.name = TOOL.FETCH_SERVICE_LOG then
      (u.fetchServiceLog.map Rev2Result.logs,
       [Portainer.fetchServiceLog (args "envId") (args "serviceId") (args "stdout")
         (args "stderr") (args "follow") (args "timestamps") (args "tail")])
    else
      (.error ⟨.undefined, "Unknown tool: " ++ req.name⟩, [])

/-! ## The "list tools" catalogs -/

/-- One tool descriptor of a `ListToolsRequestSchema` response: the tool
name, its input schema's properties (property name and declared JSON type;
the human-readable descriptions are plain documentation and are not
modelled) and its `required` list. -/
structure ToolDescriptor where
  name : String
  props : List (String × String)
  required : List String
deriving DecidableEq

/-- The second revision's `ListToolsRequestSchema` response (the revision
whose schemas all require `envId`), in source order. -/
def listToolsRev2 : List ToolDescriptor := [
  ⟨TOOL.FETCH_DOCKER_CONTAINERS, [("envId", "string")], ["envId"]⟩,
  ⟨TOOL.CREATE_DOCKER_CONTAINER,
    [("envId", "string"), ("containerName", "string"), ("image", "string"),
     ("exposedPorts", "object"), ("hostConfig", "object")],
    ["envId", "containerName", "image"]⟩,
  ⟨TOOL.START_DOCKER_CONTAINER, [("envId", "string"), ("containerId", "string")],
    ["envId", "containerId"]⟩,
  ⟨TOOL.DELETE_DOCKER_CONTAINER,
    [("envId", "string"), ("containerId", "string"), ("force", "boolean")],
    ["envId", "containerId"]⟩,
  ⟨TOOL.FETCH_CONTAINER_LOGS,
    [("envId", "string"), ("containerId", "string"), ("stdout", "boolean"),
     ("stderr", "boolean"), ("follow", "boolean"), ("timestamps", "boolean"),
     ("tail", "number")],
    ["envId", "containerId"]⟩,
  ⟨TOOL.UPDATE_CONTAINER_RESOURCE_LIMITS,
    [("envId", "string"), ("containerId", "string"), ("memory", "number"),
     ("memorySwap", "number"), ("restartPolicy", "object")],
    ["envId", "containerId"]⟩,
  ⟨TOOL.DELETE_STOPPED_CONTAINERS, [("envId", "string")], ["envId"]⟩,
  ⟨TOOL.FETCH_IMAGES, [("envId", "string")], ["envId"]⟩,
  ⟨TOOL.DELETE_IMAGE_BUILD_CACHE, [("envId", "string")], ["envId"]⟩,
  ⟨TOOL.DELETE_UNUSED_IMAGES, [("envId", "string")], ["envId"]⟩,
  ⟨TOOL.FETCH_NETWORKS, [("envId", "string")], ["envId"]⟩,
  ⟨TOOL.INSPECT_NETWORK, [("envId", "string"), ("networkId", "string")],
    ["envId", "networkId"]⟩,
  ⟨TOOL.FETCH_SERVICES, [("envId", "string")], ["envId"]⟩,
  ⟨TOOL.FETCH_SERVICE_LOG,
    [("envId", "string"), ("serviceId", "string"), ("stdout", "boolean"),
     ("stderr", "boolean"), ("follow", "boolean"), ("timestamps", "boolean"),
     ("tail", "number")],
    ["envId", "serviceId"]⟩]

/-- Modelled from the spec: the required-argument column of the §6 table
(environment id starred as required, as in the claim's examples), keyed by
the corresponding `TOOL` constant, in the table's row order. -/
def specRequiredTable : List (String × List String) := [
  (TOOL.FETCH_DOCKER_CONTAINERS, ["envId"]),
  (TOOL.CREATE_DOCKER_CONTAINER, ["envId", "containerName", "image"]),
  (TOOL.START_DOCKER_CONTAINER, ["envId", "containerId"]),
  (TOOL.DELETE_DOCKER_CONTAINER, ["envId", "containerId"]),
  (TOOL.FETCH_CONTAINER_LOGS, ["envId", "containerId"]),
  (TOOL.UPDATE_CONTAINER_RESOURCE_LIMITS, ["envId", "containerId"]),
  (TOOL.DELETE_STOPPED_CONTAINERS, ["envId"]),
  (TOOL.FETCH_IMAGES, ["envId"]),
  (TOOL.DELETE_IMAGE_BUILD_CACHE, ["envId"]),
  (TOOL.DELETE_UNUSED_IMAGES, ["envId"]),
  (TOOL.FETCH_NETWORKS, ["envId"]),
  (TOOL.INSPECT_NETWORK, ["envId", "networkId"]),
  (TOOL.FETCH_SERVICES, ["envId"]),
  (TOOL.FETCH_SERVICE_LOG, ["envId", "serviceId"])]

/-- The first revision's registered tool names, in its switch order. -/
def rev1ToolNames : List String := [
  Tools.GetDockerContainers, Tools.CreateDockerContainer, Tools.StartDockerContainer,
  Tools.DeleteDockerContainer, Tools.GetContainerLogs, Tools.UpdateContainer,
  Tools.DeleteUnwantedContainers, Tools.GetImages, Tools.DeleteImageBuilderCache,
  Tools.DeleteUnusedImages, Tools.GetNetworks, Tools.GetServices, Tools.GetServiceLogs]

/-! ## Witness fixtures -/

/-- A placeholder upstream failure for endpoints a scenario never reaches. -/
def unusedErr : JsError := ⟨.undefined, "unused"⟩

/-- An upstream on which every first-revision endpoint fails (no field is
consulted on the paths that raise before calling upstream). -/
def quietUpstreamR1 : UpstreamR1 :=
  ⟨.error unusedErr, .error unusedErr, .error unusedErr, .error unusedErr, .error unusedErr,
   .error unusedErr, .error unusedErr, .error unusedErr, .error unusedErr, .error unusedErr,
   .error unusedErr, .error unusedErr, .error unusedErr⟩

/-- An upstream on which every second-revision endpoint fails. -/
def quietUpstreamR2 : UpstreamR2 :=
  ⟨.error unusedErr, .error unusedErr, .error unusedErr, .error unusedErr, .error unusedErr,
   .error unusedErr, .error unusedErr, .error unusedErr, .error unusedErr, .error unusedErr,
   .error unusedErr, .error unusedErr, .error unusedErr, .error unusedErr⟩

/-- A sample container as the upstream reports it. -/
def sampleContainer : DockerContainer :=
  ⟨"abc", ["/web"], "nginx:latest", "sha256:1", "nginx", 0, "running", "Up 5 minutes",
   [], [], ⟨[]⟩, []⟩

/-- An upstream echoing a fixed one-container list. -/
def containersUpstreamR1 : UpstreamR1 :=
  { quietUpstreamR1 with fetchDockerContainers := .ok [sampleContainer] }

/-- An upstream whose two log endpoints succeed with fixed log text. -/
def logsUpstreamR1 : UpstreamR1 :=
  { quietUpstreamR1 with fetchContainerLogs := .ok "hello from the container",
                         fetchServiceLog := .ok "hello from the service" }

/-- An upstream on which the four mutating container operations succeed. -/
def mutationsUpstreamR1 : UpstreamR1 :=
  { quietUpstreamR1 with startDockerContainer := .ok (),
                         deleteDockerContainer := .ok (),
                         updateContainerResourceLimits := .ok (),
                         pruneContainer := .ok (.obj []) }

/-! ## Helper lemmas -/

/-- The unknown-tool message is never the empty string (so the JS `||`
fallback chain keeps it). -/
theorem unknownToolMessage_ne_empty (s : String) : ("Unknown tool: " ++ s) ≠ "" := by
  intro hc
  have h2 := congrArg String.length hc
  rw [String.length_append] at h2
  have h3 : ("Unknown tool: " : String).length = 14 := rfl
  have h4 : ("" : String).length = 0 := rfl
  omega

/-! ## Claim theorems -/

/-- C1, counterexample: in the second revision's tool-call handler (which
has no try/catch), a dispatch error — here an unknown tool name — escapes
the handler as a raised error instead of being converted into a
`Failed: <message>` reply, so the claim's "for every tool-call request ...
never re-raises" is false on the code. -/
theorem c1_rev2_handler_reraises :
    dispatchRev2 quietUpstreamR2 ⟨"nope", some (bagOfPairs [])⟩
      = (.error ⟨.undefined, "Unknown tool: nope"⟩, []) := rfl

/-- C1, amended: in the first revision's handler (whose dispatch is wrapped
in try/catch), whenever the try-block body raises an error `e`, the handler
returns a reply whose text is `Failed: <message>` with the message chosen
by `error.response?.data?.message || error.message || "Cannot process the
request"`, and never re-raises. -/
theorem c1_rev1_catch_converts_errors (cfg : String) (u : UpstreamR1) (req : CallRequest)
    (e : JsError) (tr : List HttpRequest)
    (h : dispatchRev1Core cfg u req = (.error e, tr)) :
    dispatchRev1 cfg u req =
      (⟨.str ("Failed: " ++ jsTemplate (jsOr e.responseDataMessage
        (jsOr (.str e.message) (.str "Cannot process the request"))))⟩, tr) := by
  unfold dispatchRev1
  rw [h]
  rfl

/-- C1, witness: a concrete unknown-tool request on which the first
revision's try-block raises and the handler replies `Failed: Unknown tool:
mystery`. -/
theorem c1_rev1_catch_converts_errors_witness :
    dispatchRev1Core "1" quietUpstreamR1 ⟨"mystery", some (bagOfPairs [])⟩
      = (.error ⟨.undefined, "Unknown tool: mystery"⟩, []) ∧
    dispatchRev1 "1" quietUpstreamR1 ⟨"mystery", some (bagOfPairs [])⟩
      = (⟨.str "Failed: Unknown tool: mystery"⟩, []) :=
  ⟨rfl, c1_rev1_catch_converts_errors "1" quietUpstreamR1 ⟨"mystery", some (bagOfPairs [])⟩
    ⟨.undefined, "Unknown tool: mystery"⟩ [] rfl⟩

/-- C2: `handleRequest` either returns the parsed response body or raises,
classifying every failure into exactly one of the three message shapes
(non-2xx response; request sent but no response; request setup failure);
it never returns anything on a failure outcome. -/
theorem c2_handleRequest_classification {T : Type} (d : T) (st : Nat) (data : JsValue)
    (m : String) :
    handleRequest (.success d) = .ok d ∧
    @handleRequest T (.errorResponse st data m)
      = .error ⟨.undefined,
          "Portainer API error: " ++ toString st ++ " - " ++ jsonStringify data⟩ ∧
    @handleRequest T (.noResponse m)
      = .error ⟨.undefined, "No response from Portainer API: " ++ m⟩ ∧
    @handleRequest T (.setupError m)
      = .error ⟨.undefined, "Error setting up request to Portainer API: " ++ m⟩ ∧
    ∀ o : AxiosOutcome T,
      (∃ d₀, o = .success d₀ ∧ handleRequest o = .ok d₀) ∨
      (∃ e, handleRequest o = .error e) := by
  refine ⟨rfl, rfl, rfl, rfl, fun o => ?_⟩
  cases o with
  | success a => exact .inl ⟨a, rfl, rfl⟩
  | errorResponse st' data' m' => exact .inr ⟨_, rfl⟩
  | noResponse m' => exact .inr ⟨_, rfl⟩
  | setupError m' => exact .inr ⟨_, rfl⟩

/-- C3: the second revision's "list tools" catalog pairs each tool name
with exactly the §6 required-argument list, contains each supported name
exactly once, and — being a constant list — is the same on every
invocation with no side effects; `force` is offered but not required for
the delete-container tool. -/
theorem c3_listTools_unique_and_matches_table :
    (listToolsRev2.map fun d => (d.name, d.required)) = specRequiredTable ∧
    (listToolsRev2.map fun d => d.name).Nodup ∧
    (∀ n ∈ listToolsRev2.map (fun d => d.name),
      (listToolsRev2.map fun d => d.name).count n = 1) ∧
    ∃ d, d ∈ listToolsRev2 ∧ d.name = TOOL.DELETE_DOCKER_CONTAINER ∧
      ("force", "boolean") ∈ d.props ∧ "force" ∉ d.required := by
  refine ⟨rfl, by decide, by decide,
    ⟨⟨TOOL.DELETE_DOCKER_CONTAINER,
      [("envId", "string"), ("containerId", "string"), ("force", "boolean")],
      ["envId", "containerId"]⟩, by decide, rfl, by decide, by decide⟩⟩

/-- C4: `deleteImageBuildCache` and `deleteUnusedImages` build the identical
upstream request — a DELETE of `/api/endpoints/{envId}/docker/images/prune`
with no parameters — in both the per-call-environment client and the
default-environment client: the two functions are extensionally equal. -/
theorem c4_imagePrune_operations_identical :
    (∀ envId : JsValue,
      Portainer.deleteImageBuildCache envId = Portainer.deleteUnusedImages envId) ∧
    (∀ cfg : String,
      PortainerEnvDefault.deleteImageBuildCache cfg = PortainerEnvDefault.deleteUnusedImages cfg) ∧
    (∀ envId : JsValue, Portainer.deleteImageBuildCache envId =
      ⟨.delete, "/api/endpoints/" ++ jsTemplate envId ++ "/docker/images/prune", [], []⟩) :=
  ⟨fun _ => rfl, fun _ => rfl, fun _ => rfl⟩

/-- C5: fetching container logs with all optional arguments omitted
(`undefined`) issues the upstream request with `stdout=true, stderr=true,
follow=false, timestamps=false, tail=10` — identical to supplying those
values explicitly — in both client revisions; and the first revision's
handler, given a bag holding only `containerId`, records exactly that
defaulted request. -/
theorem c5_containerLogs_omitted_defaults (envId containerId : JsValue) (cfg : String) :
    Portainer.fetchContainerLogs envId containerId
        .undefined .undefined .undefined .undefined .undefined
      = Portainer.fetchContainerLogs envId containerId
          (.bool true) (.bool true) (.bool false) (.bool false) (.num 10) ∧
    (Portainer.fetchContainerLogs envId containerId
        .undefined .undefined .undefined .undefined .undefined).params
      = [("stdout", .bool true), ("stderr", .bool true), ("follow", .bool false),
         ("timestamps", .bool false), ("tail", .num 10)] ∧
    PortainerEnvDefault.fetchContainerLogs cfg containerId
        .undefined .undefined .undefined .undefined .undefined
      = PortainerEnvDefault.fetchContainerLogs cfg containerId
          (.bool true) (.bool true) (.bool false) (.bool false) (.num 10) ∧
    ∀ u : UpstreamR1,
      (dispatchRev1Core cfg u
        ⟨Tools.GetContainerLogs, some (bagOfPairs [("containerId", containerId)])⟩).2
      = [PortainerEnvDefault.fetchContainerLogs cfg containerId
          (.bool true) (.bool true) (.bool false) (.bool false) (.num 10)] :=
  ⟨rfl, rfl, rfl, fun _ => rfl⟩

/-- C6: deleting a container with `force` omitted builds the same upstream
request (`force=false`) as supplying `force=false` explicitly, in both
client revisions, and the first revision's whole dispatch produces the same
reply and trace for the two argument bags under every upstream behavior. -/
theorem c6_deleteContainer_force_default (envId containerId : JsValue) (cfg : String) :
    Portainer.deleteDockerContainer envId containerId .undefined
      = Portainer.deleteDockerContainer envId containerId (.bool false) ∧
    PortainerEnvDefault.deleteDockerContainer cfg containerId .undefined
      = PortainerEnvDefault.deleteDockerContainer cfg containerId (.bool false) ∧
    (∀ u : UpstreamR1,
      dispatchRev1 cfg u ⟨Tools.DeleteDockerContainer,
          some (bagOfPairs [("containerId", containerId), ("envId", envId)])⟩
        = dispatchRev1 cfg u ⟨Tools.DeleteDockerContainer,
            some (bagOfPairs
              [("containerId", containerId), ("envId", envId), ("force", .bool false)])⟩) ∧
    (∀ u : UpstreamR2,
      dispatchRev2 u ⟨TOOL.DELETE_DOCKER_CONTAINER,
          some (bagOfPairs [("envId", envId), ("containerId", containerId)])⟩
        = dispatchRev2 u ⟨TOOL.DELETE_DOCKER_CONTAINER,
            some (bagOfPairs
              [("envId", envId), ("containerId", containerId), ("force", .bool false)])⟩) :=
  ⟨rfl, rfl, fun _ => rfl, fun _ => rfl⟩

/-- C7, counterexample: in the second revision's handler (no try/catch), an
unregistered tool name raises `Unknown tool: bogus` out of the handler
(while issuing no upstream call) instead of returning a reply whose text is
`Failed: Unknown tool: bogus`, so the claim as stated is false on the code. -/
theorem c7_rev2_unknown_tool_raises :
    dispatchRev2 quietUpstreamR2 ⟨"bogus", some (bagOfPairs [("x", .num 1)])⟩
      = (.error ⟨.undefined, "Unknown tool: bogus"⟩, []) := rfl

/-- C7, amended: in the first revision's handler (which has the try/catch),
a tool-call request whose name matches no registered tool performs no
upstream call (empty trace) and returns a reply whose text is exactly
`Failed: Unknown tool: <name>`. -/
theorem c7_rev1_unknown_tool_failed_reply (cfg : String) (u : UpstreamR1) (name : String)
    (bag : ArgBag) (h : name ∉ rev1ToolNames) :
    dispatchRev1 cfg u ⟨name, some bag⟩
      = (⟨.str ("Failed: Unknown tool: " ++ name)⟩, []) := by
  simp only [rev1ToolNames, List.mem_cons, List.not_mem_nil, or_false, not_or] at h
  obtain ⟨h1, h2, h3, h4, h5, h6, h7, h8, h9, h10, h11, h12, h13⟩ := h
  simp only [dispatchRev1, dispatchRev1Core, if_neg h1, if_neg h2, if_neg h3, if_neg h4,
    if_neg h5, if_neg h6, if_neg h7, if_neg h8, if_neg h9, if_neg h10, if_neg h11,
    if_neg h12, if_neg h13]
  have hb : ((("Unknown tool: " ++ name) == "") = false) :=
    beq_eq_false_iff_ne.mpr (unknownToolMessage_ne_empty name)
  simp only [bestMessage, jsOr, JsValue.isFalsy, hb, if_true, if_false, Bool.false_eq_true,
    ite_false, ite_true, jsTemplate]
  rw [← String.append_assoc]
  rfl

/-- C7, witness: the concrete unregistered name `zzz` yields the reply
`Failed: Unknown tool: zzz` with an empty upstream trace. -/
theorem c7_rev1_unknown_tool_failed_reply_witness :
    "zzz" ∉ rev1ToolNames ∧
    dispatchRev1 "1" quietUpstreamR1 ⟨"zzz", some (bagOfPairs [])⟩
      = (⟨.str "Failed: Unknown tool: zzz"⟩, []) :=
  ⟨by decide,
   c7_rev1_unknown_tool_failed_reply "1" quietUpstreamR1 "zzz" (bagOfPairs []) (by decide)⟩

/-- C8: the `fetch containers` reply is the newline-join of one templated
line per container, in upstream order (so each item contributes exactly one
line, and the mapping preserves length and ordering); each line interpolates
the item's identifier, display name, ports, state and status exactly once in
a fixed template; and on upstream success the first revision's handler
returns exactly this deterministic rendering of the fetched list. -/
theorem c8_fetchContainers_reply_structure (l : List DockerContainer) :
    formatContainersReply l = String.intercalate "\n" (l.map containerLine) ∧
    (l.map containerLine).length = l.length ∧
    (∀ c : DockerContainer, containerLine c =
      "ContainerId: " ++ c.Id ++ ", Name: " ++ containerDisplayName c ++
        ", Ports: " ++ containerPortsDisplay c ++ ", State: " ++ c.State ++
        ", Status: " ++ c.Status) ∧
    (∀ i : Nat, ∀ hi : i < l.length,
      (l.map containerLine).get ⟨i, by simpa using hi⟩ = containerLine (l.get ⟨i, hi⟩)) ∧
    ∀ (cfg : String) (u : UpstreamR1) (bag : ArgBag),
      u.fetchDockerContainers = .ok l →
      (dispatchRev1 cfg u ⟨Tools.GetDockerContainers, some bag⟩).1
        = ⟨.str (formatContainersReply l)⟩ := by
  refine ⟨rfl, l.length_map containerLine, fun c => rfl, fun i hi => by simp,
    fun cfg u bag h => ?_⟩
  have hc : dispatchRev1Core cfg u ⟨Tools.GetDockerContainers, some bag⟩
      = (u.fetchDockerContainers.map fun result => ⟨.str (formatContainersReply result)⟩,
         [PortainerEnvDefault.fetchDockerContainers cfg]) := rfl
  simp only [dispatchRev1, hc, h, Except.map]

/-- C8, witness: the fixed one-container upstream list yields exactly its
one formatted line as the reply text. -/
theorem c8_fetchContainers_reply_structure_witness :
    (dispatchRev1 "1" containersUpstreamR1 ⟨Tools.GetDockerContainers, some (bagOfPairs [])⟩).1
      = ⟨.str "ContainerId: abc, Name: /web, Ports: none, State: running, Status: Up 5 minutes"⟩ :=
  (c8_fetchContainers_reply_structure [sampleContainer]).2.2.2.2 "1" containersUpstreamR1
    (bagOfPairs []) rfl

/-- C9: the Upstream Client returns the log body as a plain string, a
string has no `message` property, and the first revision builds the success
reply of the container-log (and service-log) case from `result.message`:
on every successful log fetch the reply text is `undefined` — the fetched
log content does not appear in the reply. -/
theorem c9_log_reply_drops_content (cfg : String) (u : UpstreamR1) (bag : ArgBag)
    (s : String) (h : u.fetchContainerLogs = .ok s) :
    (JsValue.str s).getProp "message" = .undefined ∧
    (dispatchRev1 cfg u ⟨Tools.GetContainerLogs, some bag⟩).1 = ⟨.undefined⟩ ∧
    ∀ (u' : UpstreamR1) (s' : String), u'.fetchServiceLog = .ok s' →
      (dispatchRev1 cfg u' ⟨Tools.GetServiceLogs, some bag⟩).1 = ⟨.undefined⟩ := by
  refine ⟨rfl, ?_, fun u' s' h' => ?_⟩
  · have hc : dispatchRev1Core cfg u ⟨Tools.GetContainerLogs, some bag⟩
        = (u.fetchContainerLogs.map fun result => ⟨(JsValue.str result).getProp "message"⟩,
           [PortainerEnvDefault.fetchContainerLogs cfg (bag "containerId") (bag "stdout")
             (bag "stderr") (bag "follow") (bag "timestamps") (bag "tail")]) := rfl
    simp only [dispatchRev1, hc, h, Except.map]
    rfl
  · have hc : dispatchRev1Core cfg u' ⟨Tools.GetServiceLogs, some bag⟩
        = (u'.fetchServiceLog.map fun result => ⟨(JsValue.str result).getProp "message"⟩,
           [PortainerEnvDefault.fetchServiceLog cfg (bag "serviceId") (bag "stdout")
             (bag "stderr") (bag "follow") (bag "timestamps") (bag "tail")]) := rfl
    simp only [dispatchRev1, hc, h', Except.map]
    rfl

/-- C9, witness: concrete successful log fetches whose replies carry
`undefined` text instead of the fetched log strings. -/
theorem c9_log_reply_drops_content_witness :
    logsUpstreamR1.fetchContainerLogs = .ok "hello from the container" ∧
    (dispatchRev1 "1" logsUpstreamR1 ⟨Tools.GetContainerLogs, some (bagOfPairs [])⟩).1
      = ⟨.undefined⟩ ∧
    (dispatchRev1 "1" logsUpstreamR1 ⟨Tools.GetServiceLogs, some (bagOfPairs [])⟩).1
      = ⟨.undefined⟩ :=
  ⟨rfl,
   (c9_log_reply_drops_content "1" logsUpstreamR1 (bagOfPairs []) "hello from the container"
      rfl).2.1,
   (c9_log_reply_drops_content "1" logsUpstreamR1 (bagOfPairs []) "hello from the container"
      rfl).2.2 logsUpstreamR1 "hello from the service" rfl⟩

/-- C10: in the first revision (whose tool schemas declare no `envId`
argument), when the bag carries no `envId` and the upstream operation
succeeds, the success replies of the start-container, delete-container,
update-container-limits and delete-stopped-containers cases end in
`Env Id: undefined`, while the recorded upstream request targets the
startup-time default environment `cfg`. -/
theorem c10_missing_envId_reply_undefined (cfg : String) (u : UpstreamR1) (bag : ArgBag)
    (v : JsValue)
    (henv : bag "envId" = .undefined)
    (hs : u.startDockerContainer = .ok ())
    (hd : u.deleteDockerContainer = .ok ())
    (hu : u.updateContainerResourceLimits = .ok ())
    (hp : u.pruneContainer = .ok v) :
    dispatchRev1 cfg u ⟨Tools.StartDockerContainer, some bag⟩
      = (⟨.str ("Operation successful - Container Id: " ++ jsTemplate (bag "containerId") ++
           ", Env Id: " ++ "undefined")⟩,
         [PortainerEnvDefault.startDockerContainer cfg (bag "containerId")]) ∧
    dispatchRev1 cfg u ⟨Tools.DeleteDockerContainer, some bag⟩
      = (⟨.str ("Operation successful - Container Id: " ++ jsTemplate (bag "containerId") ++
           ", Env Id: " ++ "undefined")⟩,
         [PortainerEnvDefault.deleteDockerContainer cfg (bag "containerId") (bag "force")]) ∧
    dispatchRev1 cfg u ⟨Tools.UpdateContainer, some bag⟩
      = (⟨.str ("Operation successful - Container Id: " ++ jsTemplate (bag "containerId") ++
           ", Env Id: " ++ "undefined")⟩,
         [PortainerEnvDefault.updateContainerResourceLimits cfg (bag "containerId")
           (bag "memory") (bag "memorySwap") (bag "restartPolicy")]) ∧
    dispatchRev1 cfg u ⟨Tools.DeleteUnwantedContainers, some bag⟩
      = (⟨.str ("Operation successful - Env Id: " ++ "undefined")⟩,
         [PortainerEnvDefault.pruneContainer cfg]) ∧
    (PortainerEnvDefault.startDockerContainer cfg (bag "containerId")).path
      = "/api/endpoints/" ++ cfg ++ "/docker/containers/" ++ jsTemplate (bag "containerId") ++
          "/start" ∧
    (PortainerEnvDefault.pruneContainer cfg).path
      = "/api/endpoints/" ++ cfg ++ "/docker/containers/prune" := by
  refine ⟨?_, ?_, ?_, ?_, rfl, rfl⟩
  · have hc : dispatchRev1Core cfg u ⟨Tools.StartDockerContainer, some bag⟩
        = (u.startDockerContainer.map fun _ =>
             ⟨.str ("Operation successful - Container Id: " ++ jsTemplate (bag "containerId") ++
               ", Env Id: " ++ jsTemplate (bag "envId"))⟩,
           [PortainerEnvDefault.startDockerContainer cfg (bag "containerId")]) := rfl
    simp only [dispatchRev1, hc, hs, henv, Except.map, jsTemplate]
  · have hc : dispatchRev1Core cfg u ⟨Tools.DeleteDockerContainer, some bag⟩
        = (u.deleteDockerContainer.map fun _ =>
             ⟨.str ("Operation successful - Container Id: " ++ jsTemplate (bag "containerId") ++
               ", Env Id: " ++ jsTemplate (bag "envId"))⟩,
           [PortainerEnvDefault.deleteDockerContainer cfg (bag "containerId") (bag "force")]) :=
      rfl
    simp only [dispatchRev1, hc, hd, henv, Except.map, jsTemplate]
  · have hc : dispatchRev1Core cfg u ⟨Tools.UpdateContainer, some bag⟩
        = (u.updateContainerResourceLimits.map fun _ =>
             ⟨.str ("Operation successful - Container Id: " ++ jsTemplate (bag "containerId") ++
               ", Env Id: " ++ jsTemplate (bag "envId"))⟩,
           [PortainerEnvDefault.updateContainerResourceLimits cfg (bag "containerId")
             (bag "memory") (bag "memorySwap") (bag "restartPolicy")]) := rfl
    simp only [dispatchRev1, hc, hu, henv, Except.map, jsTemplate]
  · have hc : dispatchRev1Core cfg u ⟨Tools.DeleteUnwantedContainers, some bag⟩
        = (u.pruneContainer.map fun _ =>
             ⟨.str ("Operation successful - Env Id: " ++ jsTemplate (bag "envId"))⟩,
           [PortainerEnvDefault.pruneContainer cfg]) := rfl
    simp only [dispatchRev1, hc, hp, henv, Except.map, jsTemplate]

/-- C10, witness: with a bag supplying only `containerId`, the start-case
reply ends with `Env Id: undefined` and the recorded request targets the
default environment. -/
theorem c10_missing_envId_reply_undefined_witness :
    (bagOfPairs [("containerId", .str "c9")]) "envId" = .undefined ∧
    dispatchRev1 "7" mutationsUpstreamR1
        ⟨Tools.StartDockerContainer, some (bagOfPairs [("containerId", .str "c9")])⟩
      = (⟨.str "Operation successful - Container Id: c9, Env Id: undefined"⟩,
         [PortainerEnvDefault.startDockerContainer "7" (.str "c9")]) :=
  ⟨rfl,
   (c10_missing_envId_reply_undefined "7" mutationsUpstreamR1
      (bagOfPairs [("containerId", .str "c9")]) (.obj []) rfl rfl rfl rfl rfl).1⟩
